import Mathlib

/-!
Shallow embedding of `moveit_ros/visualization/planning_scene_rviz_plugin/src/
planning_scene_display.cpp` (class `moveit_rviz_plugin::PlanningSceneDisplay`).

The display's state is captured in `DisplayState`: the values of the rviz
property-panel fields declared in the constructor, the pointers to the
planning-scene monitor and renderer (as `Option`), the Ogre scene-node
visibility/pose mirrors, the needs-render flag and the accumulated scene time.
Floats are modelled as rationals, `QColor` as an 8-bit RGB triple.

Methods become pure functions on `DisplayState`.  A method that may
dereference a null collaborator pointer returns `Option DisplayState`
(`none` = null dereference).  Calls into the external renderer/monitor that
matter for the temporal claims (lockScene, the render call, the catch-branch
log, unlockScene) are recorded as a trace of `RenderEvent`s.  Environment
inputs the code reads from collaborators (the scene produced by a freshly
constructed monitor, TF transform results, whether the renderer throws) are
passed in as explicit arguments.
-/

/-- A QColor as used by the color properties (8-bit RGB components). -/
structure Color where
  r : ℕ
  g : ℕ
  b : ℕ
deriving DecidableEq, Repr

/-- The part of `planning_scene::PlanningScene` this file reads or writes:
its name, whether it is configured, and its planning frame. -/
structure PlanningScene where
  name : String
  configured : Bool
  planningFrame : String
deriving DecidableEq, Repr

/-- The part of `kinematic_model::KinematicModel` this file reads: the root
link name, the URDF link names (what `rviz::Robot::load` creates links from),
the joint model groups (name to link names), and the link names with
collision geometry. -/
structure KinematicModel where
  rootLinkName : String
  urdfLinkNames : List String
  jointModelGroups : List (String × List String)
  collisionLinkNames : List String
deriving DecidableEq, Repr

/-- The part of `planning_scene_monitor::PlanningSceneMonitor` this file
interacts with: the scene it holds (possibly null), its kinematic model,
whether an update callback has been registered via `addUpdateCallback`, and
the topic a scene monitor was started on (`none` when stopped). -/
structure PlanningSceneMonitor where
  scene : Option PlanningScene
  model : KinematicModel
  updateCallbackRegistered : Bool
  monitoredTopic : Option String
deriving DecidableEq, Repr

/-- One link of the `rviz::Robot`; this file only touches its color
(`setColor` / `unsetColor`), modelled as `Option Color` (`none` = unset). -/
structure RobotLink where
  color : Option Color
deriving DecidableEq, Repr

/-- The part of `rviz::Robot` this file uses: its links (an association list,
`getLink` finds the first entry), visibility and alpha. -/
structure Robot where
  links : List (String × RobotLink)
  visible : Bool
  alpha : ℚ
deriving DecidableEq, Repr

/-- Lookup of a link by name, modelling `rviz::Robot::getLink` (returns the
link pointer or NULL). -/
def findLink : List (String × RobotLink) → String → Option RobotLink
  | [], _ => none
  | (n, l) :: rest, name => if n = name then some l else findLink rest name

/-- Replace the first link with the given name (mutating the link object
`getLink` returned). -/
def replaceLink : List (String × RobotLink) → String → RobotLink → List (String × RobotLink)
  | [], _, _ => []
  | (n, l) :: rest, name, l' =>
      if n = name then (n, l') :: rest else (n, l) :: replaceLink rest name l'

def Robot.getLink (robot : Robot) (name : String) : Option RobotLink :=
  findLink robot.links name

/-- Status levels of `rviz::StatusProperty`. -/
inductive StatusLevel where
  | Ok
  | Warn
  | Error
deriving DecidableEq, Repr

/-- A `setStatus` record: level, property name, and text. -/
structure Status where
  level : StatusLevel
  property : String
  text : String
deriving DecidableEq, Repr

/-- A pose as produced by the TF lookup in `calculateOffsetPosition`
(position and quaternion components, applied to the planning scene node). -/
structure Pose where
  px : ℚ
  py : ℚ
  pz : ℚ
  qw : ℚ
  qx : ℚ
  qy : ℚ
  qz : ℚ
deriving DecidableEq, Repr

def identityPose : Pose := ⟨0, 0, 0, 1, 0, 0, 0⟩

/-- The whole mutable state of a `PlanningSceneDisplay`: the property-panel
values from the constructor, the collaborator pointers, the Ogre node
mirrors, and the two plain data members `current_scene_time_` and
`planning_scene_needs_render_`. -/
structure DisplayState where
  robot_description : String
  planning_scene_topic : String
  scene_name_prop : String
  scene_enabled : Bool
  scene_alpha : ℚ
  scene_color : Color
  root_link_name_prop : String
  scene_robot_enabled : Bool
  robot_alpha : ℚ
  attached_body_color : Color
  scene_display_time : ℚ
  planning_scene_robot : Robot
  planning_scene_monitor : Option PlanningSceneMonitor
  planning_scene_render : Bool
  geometry_node_visible : Bool
  node_pose : Pose
  current_scene_time : ℚ
  planning_scene_needs_render : Bool
  status : Option Status
  enabled : Bool
deriving DecidableEq, Repr

/-- Events traced by `renderPlanningScene`: the lock acquisition on the
monitor, the forwarded render call, the error log from the catch branch, and
the unlock. -/
inductive RenderEvent where
  | lockScene
  | renderCall
  | logError (msg : String)
  | unlockScene
deriving DecidableEq, Repr

def renderErrMsg : String := "Exception thrown while rendering planning scene"

/-- The event trace `renderPlanningScene` emits once the guard passed:
lock, render call, the catch-branch log when the renderer throws, unlock. -/
def renderTrace (throws : Bool) : List RenderEvent :=
  if throws then
    [RenderEvent.lockScene, RenderEvent.renderCall,
     RenderEvent.logError renderErrMsg, RenderEvent.unlockScene]
  else
    [RenderEvent.lockScene, RenderEvent.renderCall, RenderEvent.unlockScene]

/-- `PlanningSceneDisplay::renderPlanningScene`.  `throws` says whether the
external renderer throws inside the try block.  Returns `none` exactly when
the unguarded `planning_scene_monitor_->lockScene()` would dereference a
null monitor pointer. -/
def renderPlanningScene (s : DisplayState) (throws : Bool) :
    Option (DisplayState × List RenderEvent) :=
  if s.planning_scene_render && s.planning_scene_needs_render then
    match s.planning_scene_monitor with
    | none => none
    | some _ =>
        some ({ s with planning_scene_needs_render := false,
                       geometry_node_visible := s.scene_enabled },
              renderTrace throws)
  else
    some (s, [])

/-- Number of occurrences of an event in a trace. -/
def countE (e : RenderEvent) (tr : List RenderEvent) : ℕ :=
  (tr.filter (fun x => x = e)).length

/-- The lock discipline over a trace: wherever a render call appears, the
preceding prefix holds strictly more lock than unlock events (the lock is
held), and an unlock event occurs later in the trace. -/
def rendersLocked (tr : List RenderEvent) : Prop :=
  ∀ i : Fin tr.length, tr.get i = RenderEvent.renderCall →
    countE RenderEvent.unlockScene (tr.take i.val) <
      countE RenderEvent.lockScene (tr.take i.val) ∧
    ∃ j : Fin tr.length, i < j ∧ tr.get j = RenderEvent.unlockScene

instance rendersLockedDecidable (tr : List RenderEvent) :
    Decidable (rendersLocked tr) := by
  unfold rendersLocked
  infer_instance

/-- Witness for C1 on a concrete state: renderer present, needs-render set,
monitor present, renderer throwing. -/
def wMonitor : PlanningSceneMonitor :=
  { scene := some { name := "w", configured := true, planningFrame := "world" }
    model := { rootLinkName := "base", urdfLinkNames := ["base"],
               jointModelGroups := [], collisionLinkNames := ["base"] }
    updateCallbackRegistered := true
    monitoredTopic := some "planning_scene" }

def wState : DisplayState :=
  { robot_description := "robot_description"
    planning_scene_topic := "planning_scene"
    scene_name_prop := "(noname)"
    scene_enabled := true
    scene_alpha := 9/10
    scene_color := ⟨50, 230, 50⟩
    root_link_name_prop := ""
    scene_robot_enabled := true
    robot_alpha := 1/2
    attached_body_color := ⟨150, 50, 150⟩
    scene_display_time := 1/5
    planning_scene_robot := { links := [], visible := true, alpha := 1 }
    planning_scene_monitor := some wMonitor
    planning_scene_render := true
    geometry_node_visible := true
    node_pose := identityPose
    current_scene_time := 0
    planning_scene_needs_render := true
    status := none
    enabled := true }

/-- `PlanningSceneDisplay::getPlanningScene`: the monitor's scene, or the
static empty pointer when no monitor exists. -/
def getPlanningScene (s : DisplayState) : Option PlanningScene :=
  match s.planning_scene_monitor with
  | some m => m.scene
  | none => none

/-- `PlanningSceneDisplay::getKinematicModel`: the monitor's kinematic model,
or the static empty pointer when no monitor exists. -/
def getKinematicModel (s : DisplayState) : Option KinematicModel :=
  match s.planning_scene_monitor with
  | some m => some m.model
  | none => none

/-- `PlanningSceneDisplay::queueRenderSceneGeometry`. -/
def queueRenderSceneGeometry (s : DisplayState) : DisplayState :=
  { s with planning_scene_needs_render := true }

/-- `PlanningSceneDisplay::changedAttachedBodyColor`. -/
def changedAttachedBodyColor (s : DisplayState) : DisplayState :=
  queueRenderSceneGeometry s

/-- `PlanningSceneDisplay::changedSceneColor`. -/
def changedSceneColor (s : DisplayState) : DisplayState :=
  queueRenderSceneGeometry s

/-- `PlanningSceneDisplay::changedSceneAlpha`. -/
def changedSceneAlpha (s : DisplayState) : DisplayState :=
  queueRenderSceneGeometry s

/-- `PlanningSceneDisplay::changedSceneName`: when a planning scene exists,
set its name from the Scene Name property; otherwise do nothing. -/
def changedSceneName (s : DisplayState) : DisplayState :=
  match s.planning_scene_monitor with
  | none => s
  | some m =>
      match m.scene with
      | none => s
      | some sc =>
          { s with planning_scene_monitor := some ({ m with scene := some ({ sc with name := s.scene_name_prop }) }) }

/-- `PlanningSceneDisplay::changedRootLinkName`: when a planning scene
exists, copy the kinematic model's root link name into the (read-only)
property. -/
def changedRootLinkName (s : DisplayState) : DisplayState :=
  match s.planning_scene_monitor with
  | none => s
  | some m =>
      match m.scene with
      | none => s
      | some _ => { s with root_link_name_prop := m.model.rootLinkName }

/-- `PlanningSceneDisplay::changedPlanningSceneTopic`: when a monitor exists,
restart the scene monitor on the topic property's value. -/
def changedPlanningSceneTopic (s : DisplayState) : DisplayState :=
  match s.planning_scene_monitor with
  | none => s
  | some m =>
      { s with planning_scene_monitor := some ({ m with monitoredTopic := some s.planning_scene_topic }) }

/-- `PlanningSceneDisplay::changedSceneDisplayTime` (empty body). -/
def changedSceneDisplayTime (s : DisplayState) : DisplayState := s

/-- `PlanningSceneDisplay::changedSceneRobotEnabled`: when the display is
enabled, set the scene robot's visibility from the property. -/
def changedSceneRobotEnabled (s : DisplayState) : DisplayState :=
  if s.enabled then
    { s with planning_scene_robot :=
        { s.planning_scene_robot with visible := s.scene_robot_enabled } }
  else s

/-- `PlanningSceneDisplay::changedSceneEnabled`: set the geometry node's
visibility from the property. -/
def changedSceneEnabled (s : DisplayState) : DisplayState :=
  { s with geometry_node_visible := s.scene_enabled }

/-- `PlanningSceneDisplay::changedRobotSceneAlpha`: forward the Robot Alpha
property to the scene robot. -/
def changedRobotSceneAlpha (s : DisplayState) : DisplayState :=
  { s with planning_scene_robot :=
      { s.planning_scene_robot with alpha := s.robot_alpha } }

/-- `PlanningSceneDisplay::setLinkColor(robot, link_name, color)`: look the
link up; when it exists set its color, otherwise do nothing. -/
def setLinkColor (robot : Robot) (link_name : String) (color : Color) : Robot :=
  match robot.getLink link_name with
  | none => robot
  | some l =>
      { robot with links := replaceLink robot.links link_name { l with color := some color } }

/-- `PlanningSceneDisplay::unsetLinkColor(robot, link_name)`: look the link
up; when it exists unset its color, otherwise do nothing. -/
def unsetLinkColor (robot : Robot) (link_name : String) : Robot :=
  match robot.getLink link_name with
  | none => robot
  | some l =>
      { robot with links := replaceLink robot.links link_name { l with color := none } }

/-- The single-argument `PlanningSceneDisplay::setLinkColor(link_name,
color)`: applies to the display's own scene robot. -/
def setLinkColorSelf (s : DisplayState) (link_name : String) (color : Color) : DisplayState :=
  { s with planning_scene_robot := setLinkColor s.planning_scene_robot link_name color }

/-- The single-argument `PlanningSceneDisplay::unsetLinkColor(link_name)`. -/
def unsetLinkColorSelf (s : DisplayState) (link_name : String) : DisplayState :=
  { s with planning_scene_robot := unsetLinkColor s.planning_scene_robot link_name }

/-- `PlanningSceneDisplay::setGroupColor`: guarded on the planning scene;
when the joint model group exists, color each of its links. -/
def setGroupColor (s : DisplayState) (robot : Robot) (group_name : String)
    (color : Color) : Robot :=
  match s.planning_scene_monitor with
  | none => robot
  | some m =>
      match m.scene with
      | none => robot
      | some _ =>
          match m.model.jointModelGroups.find? (fun p => p.1 = group_name) with
          | none => robot
          | some (_, links) => links.foldl (fun r n => setLinkColor r n color) robot

/-- `PlanningSceneDisplay::unsetGroupColor`. -/
def unsetGroupColor (s : DisplayState) (robot : Robot) (group_name : String) : Robot :=
  match s.planning_scene_monitor with
  | none => robot
  | some m =>
      match m.scene with
      | none => robot
      | some _ =>
          match m.model.jointModelGroups.find? (fun p => p.1 = group_name) with
          | none => robot
          | some (_, links) => links.foldl (fun r n => unsetLinkColor r n) robot

/-- `PlanningSceneDisplay::unsetAllColors`: guarded on the planning scene;
unset the color of every link with collision geometry. -/
def unsetAllColors (s : DisplayState) (robot : Robot) : Robot :=
  match s.planning_scene_monitor with
  | none => robot
  | some m =>
      match m.scene with
      | none => robot
      | some _ => m.model.collisionLinkNames.foldl (fun r n => unsetLinkColor r n) robot

def statusPropName : String := "PlanningScene"

def statusOkMsg : String := "Planning Scene Loaded Successfully"

def statusErrMsg : String := "No Planning Scene Loaded"

/-- What the freshly constructed `PlanningSceneMonitor` supplies: the scene
it loaded (possibly null) and the kinematic model. -/
structure MonitorEnv where
  newScene : Option PlanningScene
  newModel : KinematicModel
deriving DecidableEq, Repr

/-- `PlanningSceneDisplay::loadRobotModel`: reset renderer and monitor,
construct a fresh monitor; when it holds a configured planning scene,
register the update callback, start the scene monitor on the topic property,
create the renderer, run `onRobotModelLoaded` (reload the scene robot from
the URDF and refresh the name properties), and set status Ok; otherwise drop
the monitor again and set status Error. -/
def loadRobotModel (s : DisplayState) (env : MonitorEnv) : DisplayState :=
  let m0 : PlanningSceneMonitor :=
    { scene := env.newScene, model := env.newModel,
      updateCallbackRegistered := false, monitoredTopic := none }
  let s2 := { s with planning_scene_render := false,
                     planning_scene_monitor := some m0 }
  match env.newScene with
  | some sc =>
      if sc.configured then
        let m1 := { m0 with updateCallbackRegistered := true,
                            monitoredTopic := some s2.planning_scene_topic }
        { s2 with
            planning_scene_monitor := some m1
            planning_scene_render := true
            planning_scene_robot :=
              { s2.planning_scene_robot with
                  links := env.newModel.urdfLinkNames.map (fun n => (n, ⟨none⟩)) }
            scene_name_prop := sc.name
            root_link_name_prop := env.newModel.rootLinkName
            status := some ⟨StatusLevel.Ok, statusPropName, statusOkMsg⟩ }
      else
        { s2 with planning_scene_monitor := none,
                  status := some ⟨StatusLevel.Error, statusPropName, statusErrMsg⟩ }
  | none =>
      { s2 with planning_scene_monitor := none,
                status := some ⟨StatusLevel.Error, statusPropName, statusErrMsg⟩ }

/-- `PlanningSceneDisplay::reset`: drop the renderer, clear the scene robot,
reload the robot model, and restore the robot's visibility from the
property. -/
def reset (s : DisplayState) (env : MonitorEnv) : DisplayState :=
  let s1 := { s with planning_scene_render := false,
                     planning_scene_robot := { s.planning_scene_robot with links := [] } }
  let s2 := loadRobotModel s1 env
  { s2 with planning_scene_robot :=
      { s2.planning_scene_robot with visible := s2.scene_robot_enabled } }

/-- `PlanningSceneDisplay::changedRobotDescription`: reset when enabled. -/
def changedRobotDescription (s : DisplayState) (env : MonitorEnv) : DisplayState :=
  if s.enabled then reset s env else s

/-- `PlanningSceneDisplay::onSceneMonitorReceivedUpdate`: refresh the scene
name and root link name properties from the current planning scene and mark
the geometry as needing a re-render.  Dereferences the planning scene and
kinematic model without a guard, hence `none` when either is missing. -/
def onSceneMonitorReceivedUpdate (s : DisplayState) : Option DisplayState :=
  match s.planning_scene_monitor with
  | none => none
  | some m =>
      match m.scene with
      | none => none
      | some sc =>
          some { s with scene_name_prop := sc.name,
                        root_link_name_prop := m.model.rootLinkName,
                        planning_scene_needs_render := true }

/-- `PlanningSceneDisplay::sceneMonitorReceivedUpdate` (the registered
callback) forwards to `onSceneMonitorReceivedUpdate`. -/
def sceneMonitorReceivedUpdate (s : DisplayState) : Option DisplayState :=
  onSceneMonitorReceivedUpdate s

/-- What the TF client supplies inside `calculateOffsetPosition`: whether
`getLatestCommonTime` succeeds, whether `canTransform` holds, whether
`transformPose` throws, and the transformed pose when it succeeds. -/
structure TFEnv where
  latestCommonTimeOk : Bool
  canTransform : Bool
  transformThrows : Bool
  transformedPose : Pose
deriving DecidableEq, Repr

/-- `PlanningSceneDisplay::calculateOffsetPosition`: early return when no
monitor exists; otherwise look up the latest common time (early return on
failure), transform the identity pose of the planning frame into the fixed
frame when possible (a throwing transform is logged and leaves the identity
pose), and apply the result to the planning scene node.  `none` models the
unguarded `getPlanningScene()->getPlanningFrame()` dereference when the
monitor holds no scene. -/
def calculateOffsetPosition (s : DisplayState) (tf : TFEnv) : Option DisplayState :=
  match s.planning_scene_monitor with
  | none => some s
  | some m =>
      match m.scene with
      | none => none
      | some _ =>
          if tf.latestCommonTimeOk then
            let pose :=
              if tf.canTransform then
                if tf.transformThrows then identityPose else tf.transformedPose
              else identityPose
            some { s with node_pose := pose }
          else
            some s

/-- `PlanningSceneDisplay::fixedFrameChanged`: recompute the offset. -/
def fixedFrameChanged (s : DisplayState) (tf : TFEnv) : Option DisplayState :=
  calculateOffsetPosition s tf

/-- `PlanningSceneDisplay::onEnable`: enable, reload the robot model, apply
the visibility properties, and recompute the offset position. -/
def onEnable (s : DisplayState) (env : MonitorEnv) (tf : TFEnv) : Option DisplayState :=
  let s1 := loadRobotModel { s with enabled := true } env
  let s2 := { s1 with
      planning_scene_robot := { s1.planning_scene_robot with visible := s1.scene_robot_enabled }
      geometry_node_visible := s1.scene_enabled }
  calculateOffsetPosition s2 tf

/-- `PlanningSceneDisplay::onDisable`: stop the scene monitor when one
exists, hide the geometry node and the scene robot, and disable. -/
def onDisable (s : DisplayState) : DisplayState :=
  let s1 :=
    match s.planning_scene_monitor with
    | none => s
    | some m => { s with planning_scene_monitor := some ({ m with monitoredTopic := none }) }
  { s1 with
      geometry_node_visible := false
      planning_scene_robot := { s1.planning_scene_robot with visible := false }
      enabled := false }

/-- The branch condition of `PlanningSceneDisplay::update` that leads into
`renderPlanningScene`: a monitor exists and the accumulated scene time
(after adding `wall_dt`) strictly exceeds the Scene Display Time property. -/
def updateAttempts (s : DisplayState) (wall_dt : ℚ) : Bool :=
  s.planning_scene_monitor.isSome &&
    decide (s.scene_display_time < s.current_scene_time + wall_dt)

/-- Adding `wall_dt` to `current_scene_time_`. -/
def addTime (s : DisplayState) (wall_dt : ℚ) : DisplayState :=
  { s with current_scene_time := s.current_scene_time + wall_dt }

/-- `PlanningSceneDisplay::update`: after the base-class update, return when
no monitor exists; otherwise accumulate `wall_dt` and, when the accumulated
time strictly exceeds the Scene Display Time property, render and reset the
accumulator to zero. -/
def update (s : DisplayState) (wall_dt : ℚ) (throws : Bool) :
    Option (DisplayState × List RenderEvent) :=
  match s.planning_scene_monitor with
  | none => some (s, [])
  | some _ =>
      let s1 := addTime s wall_dt
      if s1.scene_display_time < s1.current_scene_time then
        match renderPlanningScene s1 throws with
        | none => none
        | some (s2, tr) => some ({ s2 with current_scene_time := 0 }, tr)
      else
        some (s1, [])

/-- The minimum the constructor sets on the Scene Display Time property. -/
def sceneDisplayTimeMin : ℚ := 1/10000

/-- The state after the constructor and `onInitialize`: all properties at
their constructor defaults, no monitor, no renderer, a fresh scene robot,
needs-render set, zero accumulated scene time, display not yet enabled. -/
def initialState : DisplayState :=
  { robot_description := "robot_description"
    planning_scene_topic := "planning_scene"
    scene_name_prop := "(noname)"
    scene_enabled := true
    scene_alpha := 9/10
    scene_color := ⟨50, 230, 50⟩
    root_link_name_prop := ""
    scene_robot_enabled := true
    robot_alpha := 1/2
    attached_body_color := ⟨150, 50, 150⟩
    scene_display_time := 1/5
    planning_scene_robot := { links := [], visible := true, alpha := 1 }
    planning_scene_monitor := none
    planning_scene_render := false
    geometry_node_visible := true
    node_pose := identityPose
    current_scene_time := 0
    planning_scene_needs_render := true
    status := none
    enabled := false }

/-- The operations the host can drive the display through: the lifecycle
hooks, the periodic update, the registered scene-update callback, the
coloring API, and each property edit (the panel clamps float properties to
their min/max, then invokes the changed-slot). -/
inductive Op where
  | opOnEnable (env : MonitorEnv) (tf : TFEnv)
  | opOnDisable
  | opReset (env : MonitorEnv)
  | opLoadRobotModel (env : MonitorEnv)
  | opUpdate (wall_dt : ℚ) (throws : Bool)
  | opRender (throws : Bool)
  | opSceneUpdate
  | opFixedFrameChanged (tf : TFEnv)
  | opCalculateOffsetPosition (tf : TFEnv)
  | opSetRobotDescription (v : String) (env : MonitorEnv)
  | opSetTopic (v : String)
  | opSetSceneName (v : String)
  | opSetSceneEnabled (b : Bool)
  | opSetSceneAlpha (v : ℚ)
  | opSetSceneColor (c : Color)
  | opSetRootLinkName
  | opSetSceneRobotEnabled (b : Bool)
  | opSetRobotAlpha (v : ℚ)
  | opSetAttachedBodyColor (c : Color)
  | opSetSceneDisplayTime (v : ℚ)
  | opSetLinkColor (name : String) (c : Color)
  | opUnsetLinkColor (name : String)
  | opSetGroupColor (g : String) (c : Color)
  | opUnsetGroupColor (g : String)
  | opUnsetAllColors
deriving Repr

/-- Clamp of a float property with a minimum and maximum. -/
def clamp01 (v : ℚ) : ℚ := max 0 (min 1 v)

/-- One step of the display: `none` models a null-pointer dereference. -/
def applyOp (op : Op) (s : DisplayState) : Option DisplayState :=
  match op with
  | Op.opOnEnable env tf => onEnable s env tf
  | Op.opOnDisable => some (onDisable s)
  | Op.opReset env => some (reset s env)
  | Op.opLoadRobotModel env => some (loadRobotModel s env)
  | Op.opUpdate dt th => (update s dt th).map Prod.fst
  | Op.opRender th => (renderPlanningScene s th).map Prod.fst
  | Op.opSceneUpdate => sceneMonitorReceivedUpdate s
  | Op.opFixedFrameChanged tf => fixedFrameChanged s tf
  | Op.opCalculateOffsetPosition tf => calculateOffsetPosition s tf
  | Op.opSetRobotDescription v env =>
      some (changedRobotDescription { s with robot_description := v } env)
  | Op.opSetTopic v => some (changedPlanningSceneTopic { s with planning_scene_topic := v })
  | Op.opSetSceneName v => some (changedSceneName { s with scene_name_prop := v })
  | Op.opSetSceneEnabled b => some (changedSceneEnabled { s with scene_enabled := b })
  | Op.opSetSceneAlpha v => some (changedSceneAlpha { s with scene_alpha := clamp01 v })
  | Op.opSetSceneColor c => some (changedSceneColor { s with scene_color := c })
  | Op.opSetRootLinkName => some (changedRootLinkName s)
  | Op.opSetSceneRobotEnabled b =>
      some (changedSceneRobotEnabled { s with scene_robot_enabled := b })
  | Op.opSetRobotAlpha v => some (changedRobotSceneAlpha { s with robot_alpha := clamp01 v })
  | Op.opSetAttachedBodyColor c =>
      some (changedAttachedBodyColor { s with attached_body_color := c })
  | Op.opSetSceneDisplayTime v =>
      some (changedSceneDisplayTime { s with scene_display_time := max sceneDisplayTimeMin v })
  | Op.opSetLinkColor name c => some (setLinkColorSelf s name c)
  | Op.opUnsetLinkColor name => some (unsetLinkColorSelf s name)
  | Op.opSetGroupColor g c =>
      some { s with planning_scene_robot := setGroupColor s s.planning_scene_robot g c }
  | Op.opUnsetGroupColor g =>
      some { s with planning_scene_robot := unsetGroupColor s s.planning_scene_robot g }
  | Op.opUnsetAllColors =>
      some { s with planning_scene_robot := unsetAllColors s s.planning_scene_robot }

/-- States reachable from the freshly initialized display through
non-crashing operations. -/
inductive Reachable : DisplayState → Prop where
  | init : Reachable initialState
  | step {s s' : DisplayState} (op : Op) :
      Reachable s → applyOp op s = some s' → Reachable s'

/-- A monitor environment whose fresh monitor holds a configured scene. -/
def envOk : MonitorEnv :=
  { newScene := some { name := "w", configured := true, planningFrame := "world" }
    newModel := { rootLinkName := "base", urdfLinkNames := ["base"],
                  jointModelGroups := [], collisionLinkNames := ["base"] } }

/-- A monitor environment whose fresh monitor holds no scene. -/
def envBad : MonitorEnv :=
  { newScene := none
    newModel := { rootLinkName := "", urdfLinkNames := [],
                  jointModelGroups := [], collisionLinkNames := [] } }

/-- A TF environment where every lookup succeeds. -/
def tfOk : TFEnv :=
  { latestCommonTimeOk := true, canTransform := true, transformThrows := false,
    transformedPose := identityPose }

/-- C8's invariant: a live renderer implies a live monitor. -/
def monitorRenderInv (s : DisplayState) : Prop :=
  s.planning_scene_render = true → s.planning_scene_monitor.isSome = true

/-- The display's own non-property, non-pointer data members: the
accumulated scene time and the needs-render flag. -/
def ownExtra (s : DisplayState) : ℚ × Bool :=
  (s.current_scene_time, s.planning_scene_needs_render)

/-- The operations whose handlers are allowed to touch the needs-render flag
or the scene-time accumulator: the three render-queueing property handlers,
the scene-update callback, renderPlanningScene and update. -/
def touchesOwnState : Op → Bool
  | Op.opUpdate _ _ => true
  | Op.opRender _ => true
  | Op.opSceneUpdate => true
  | Op.opSetSceneAlpha _ => true
  | Op.opSetSceneColor _ => true
  | Op.opSetAttachedBodyColor _ => true
  | _ => false

/-- A run of update calls none of which takes the render branch (each one
just accumulates its wall_dt). -/
def noAttemptRun : DisplayState → List ℚ → Bool
  | _, [] => true
  | s, dt :: rest => !updateAttempts s dt && noAttemptRun (addTime s dt) rest

/-- A concrete one-link robot. -/
def robotW : Robot :=
  { links := [("base", { color := none })], visible := true, alpha := 1 }

/-- C1: Whenever renderPlanningScene forwards a rendering call that reads the
current planning scene (planning_scene_render_ non-null and the needs-render
flag set), lockScene() is acquired before the renderer reads the scene and
unlockScene() released afterwards, on both the normal path and the throwing
path; no render call on the scene is ever issued without the lock held. -/
theorem renderPlanningScene_lock_discipline
    (s : DisplayState) (throws : Bool) (s' : DisplayState) (tr : List RenderEvent)
    (h : renderPlanningScene s throws = some (s', tr)) :
    rendersLocked tr ∧
    (s.planning_scene_render = true → s.planning_scene_needs_render = true →
      tr.head? = some RenderEvent.lockScene ∧
      RenderEvent.renderCall ∈ tr ∧
      tr.getLast? = some RenderEvent.unlockScene) := by
  by_cases hg : s.planning_scene_render && s.planning_scene_needs_render
  · cases hm : s.planning_scene_monitor with
    | none => simp [renderPlanningScene, hg, hm] at h
    | some m =>
        simp only [renderPlanningScene, hg, hm, if_true] at h
        obtain ⟨-, htr⟩ := Prod.mk.injEq .. ▸ Option.some.inj h
        subst htr
        cases throws <;> exact ⟨by decide, fun _ _ => by decide⟩
  · simp only [renderPlanningScene, hg, if_false] at h
    obtain ⟨-, htr⟩ := Prod.mk.injEq .. ▸ Option.some.inj h
    subst htr
    refine ⟨by decide, fun h1 h2 => absurd hg ?_⟩
    simp [h1, h2]

theorem renderPlanningScene_lock_discipline_witness :
    rendersLocked (renderTrace true) ∧
    ((renderTrace true).head? = some RenderEvent.lockScene ∧
      RenderEvent.renderCall ∈ renderTrace true ∧
      (renderTrace true).getLast? = some RenderEvent.unlockScene) := by
  have h := renderPlanningScene_lock_discipline wState true
      { wState with planning_scene_needs_render := false,
                    geometry_node_visible := wState.scene_enabled }
      (renderTrace true) rfl
  exact ⟨h.1, h.2 rfl rfl⟩

/-- C2: every exception the renderer throws inside renderPlanningScene is
caught and only the error message is logged: the function still returns
normally (no propagation), the needs-render flag is still cleared and the
scene still unlocked, and the resulting state is exactly the one of the
successful path; no retry occurs. -/
theorem renderPlanningScene_exception_contained
    (s : DisplayState) (m : PlanningSceneMonitor)
    (hm : s.planning_scene_monitor = some m)
    (hr : s.planning_scene_render = true)
    (hn : s.planning_scene_needs_render = true) :
    ∃ s' : DisplayState,
      renderPlanningScene s true = some (s', renderTrace true) ∧
      renderPlanningScene s false = some (s', renderTrace false) ∧
      s'.planning_scene_needs_render = false ∧
      renderTrace true =
        [RenderEvent.lockScene, RenderEvent.renderCall,
         RenderEvent.logError renderErrMsg, RenderEvent.unlockScene] ∧
      renderTrace false =
        [RenderEvent.lockScene, RenderEvent.renderCall, RenderEvent.unlockScene] := by
  refine ⟨{ s with planning_scene_needs_render := false,
                   geometry_node_visible := s.scene_enabled }, ?_, ?_, rfl, rfl, rfl⟩
  · simp [renderPlanningScene, hr, hn, hm]
  · simp [renderPlanningScene, hr, hn, hm]

theorem renderPlanningScene_exception_contained_witness :
    ∃ s' : DisplayState,
      renderPlanningScene wState true = some (s', renderTrace true) ∧
      renderPlanningScene wState false = some (s', renderTrace false) ∧
      s'.planning_scene_needs_render = false ∧
      renderTrace true =
        [RenderEvent.lockScene, RenderEvent.renderCall,
         RenderEvent.logError renderErrMsg, RenderEvent.unlockScene] ∧
      renderTrace false =
        [RenderEvent.lockScene, RenderEvent.renderCall, RenderEvent.unlockScene] :=
  renderPlanningScene_exception_contained wState wMonitor rfl rfl rfl

/-- C3: loadRobotModel sets a host-displayed status string in every case: when
the fresh monitor holds a configured planning scene it registers the update
callback, starts the scene monitor on the configured topic, creates the
renderer and sets status Ok with text "Planning Scene Loaded Successfully";
otherwise it resets the monitor pointer back to null and sets status Error
with text "No Planning Scene Loaded", so after a failed load the display
holds neither a monitor nor a renderer. -/
theorem loadRobotModel_status (s : DisplayState) (env : MonitorEnv) :
    ((loadRobotModel s env).status).isSome = true ∧
    (∀ sc, env.newScene = some sc → sc.configured = true →
      ∃ m, (loadRobotModel s env).planning_scene_monitor = some m ∧
        m.updateCallbackRegistered = true ∧
        m.monitoredTopic = some s.planning_scene_topic ∧
        (loadRobotModel s env).planning_scene_render = true ∧
        (loadRobotModel s env).status = some ⟨StatusLevel.Ok, statusPropName, statusOkMsg⟩) ∧
    ((∀ sc, env.newScene = some sc → sc.configured = false) →
      (loadRobotModel s env).planning_scene_monitor = none ∧
      (loadRobotModel s env).planning_scene_render = false ∧
      (loadRobotModel s env).status = some ⟨StatusLevel.Error, statusPropName, statusErrMsg⟩) := by
  refine ⟨?_, ?_, ?_⟩
  · cases hsc : env.newScene with
    | none => simp [loadRobotModel, hsc]
    | some sc =>
        by_cases hc : sc.configured <;> simp [loadRobotModel, hsc, hc]
  · intro sc hsc hc
    refine ⟨{ scene := env.newScene, model := env.newModel,
              updateCallbackRegistered := true,
              monitoredTopic := some s.planning_scene_topic }, ?_⟩
    simp [loadRobotModel, hsc, hc]
  · intro hfail
    cases hsc : env.newScene with
    | none => simp [loadRobotModel, hsc]
    | some sc => simp [loadRobotModel, hsc, hfail sc hsc]

theorem loadRobotModel_status_witness :
    (∃ m, (loadRobotModel initialState envOk).planning_scene_monitor = some m ∧
      m.updateCallbackRegistered = true ∧
      m.monitoredTopic = some initialState.planning_scene_topic ∧
      (loadRobotModel initialState envOk).planning_scene_render = true ∧
      (loadRobotModel initialState envOk).status =
        some ⟨StatusLevel.Ok, statusPropName, statusOkMsg⟩) ∧
    ((loadRobotModel initialState envBad).planning_scene_monitor = none ∧
      (loadRobotModel initialState envBad).planning_scene_render = false ∧
      (loadRobotModel initialState envBad).status =
        some ⟨StatusLevel.Error, statusPropName, statusErrMsg⟩) :=
  ⟨(loadRobotModel_status initialState envOk).2.1
      { name := "w", configured := true, planningFrame := "world" } rfl rfl,
   (loadRobotModel_status initialState envBad).2.2 (fun sc h => by simp [envBad] at h)⟩

/-- C4: the scene-geometry display property handlers changedSceneAlpha,
changedSceneColor and changedAttachedBodyColor each set
planning_scene_needs_render_ to true and modify no other display state. -/
theorem sceneGeometryChanges_setNeedsRender (s : DisplayState) :
    changedSceneAlpha s = { s with planning_scene_needs_render := true } ∧
    changedSceneColor s = { s with planning_scene_needs_render := true } ∧
    changedAttachedBodyColor s = { s with planning_scene_needs_render := true } :=
  ⟨rfl, rfl, rfl⟩

/-- C5: after a successful load the update callback is registered on the
monitor, and every scene-update delivered through that callback refreshes
the scene-name and root-link-name properties from the current planning scene
and marks the scene geometry as needing a re-render. -/
theorem sceneUpdate_subscription (s : DisplayState) :
    (∀ env sc, env.newScene = some sc → sc.configured = true →
      ∃ m, (loadRobotModel s env).planning_scene_monitor = some m ∧
        m.updateCallbackRegistered = true) ∧
    (∀ m sc, s.planning_scene_monitor = some m → m.scene = some sc →
      sceneMonitorReceivedUpdate s =
        some { s with scene_name_prop := sc.name,
                      root_link_name_prop := m.model.rootLinkName,
                      planning_scene_needs_render := true }) := by
  constructor
  · intro env sc hsc hc
    refine ⟨{ scene := env.newScene, model := env.newModel,
              updateCallbackRegistered := true,
              monitoredTopic := some s.planning_scene_topic }, ?_⟩
    simp [loadRobotModel, hsc, hc]
  · intro m sc hm hsc
    simp [sceneMonitorReceivedUpdate, onSceneMonitorReceivedUpdate, hm, hsc]

theorem sceneUpdate_subscription_witness :
    (∃ m, (loadRobotModel wState envOk).planning_scene_monitor = some m ∧
      m.updateCallbackRegistered = true) ∧
    sceneMonitorReceivedUpdate wState =
      some { wState with scene_name_prop := "w", root_link_name_prop := "base",
                         planning_scene_needs_render := true } :=
  ⟨(sceneUpdate_subscription wState).1 envOk
      { name := "w", configured := true, planningFrame := "world" } rfl rfl,
   (sceneUpdate_subscription wState).2 wMonitor
      { name := "w", configured := true, planningFrame := "world" } rfl rfl⟩

/-- C6: operations that would dereference the planning scene, kinematic
model or scene monitor are null-guarded: with no monitor, getPlanningScene
and getKinematicModel return the empty pointer, and changedSceneName,
changedRootLinkName, setGroupColor, unsetGroupColor, unsetAllColors,
changedPlanningSceneTopic, calculateOffsetPosition and update are no-ops
rather than dereferencing a null pointer. -/
theorem nullGuarded_noops (s : DisplayState) (robot : Robot) (g : String) (c : Color)
    (tf : TFEnv) (dt : ℚ) (th : Bool)
    (h : s.planning_scene_monitor = none) :
    getPlanningScene s = none ∧
    getKinematicModel s = none ∧
    changedSceneName s = s ∧
    changedRootLinkName s = s ∧
    setGroupColor s robot g c = robot ∧
    unsetGroupColor s robot g = robot ∧
    unsetAllColors s robot = robot ∧
    changedPlanningSceneTopic s = s ∧
    calculateOffsetPosition s tf = some s ∧
    update s dt th = some (s, []) := by
  refine ⟨?_, ?_, ?_, ?_, ?_, ?_, ?_, ?_, ?_, ?_⟩ <;>
    simp [getPlanningScene, getKinematicModel, changedSceneName, changedRootLinkName,
          setGroupColor, unsetGroupColor, unsetAllColors, changedPlanningSceneTopic,
          calculateOffsetPosition, update, h]

theorem nullGuarded_noops_witness :
    getPlanningScene initialState = none ∧
    getKinematicModel initialState = none ∧
    changedSceneName initialState = initialState ∧
    changedRootLinkName initialState = initialState ∧
    setGroupColor initialState initialState.planning_scene_robot "left_arm" ⟨1, 2, 3⟩ =
      initialState.planning_scene_robot ∧
    unsetGroupColor initialState initialState.planning_scene_robot "left_arm" =
      initialState.planning_scene_robot ∧
    unsetAllColors initialState initialState.planning_scene_robot =
      initialState.planning_scene_robot ∧
    changedPlanningSceneTopic initialState = initialState ∧
    calculateOffsetPosition initialState tfOk = some initialState ∧
    update initialState 1 false = some (initialState, []) :=
  nullGuarded_noops initialState initialState.planning_scene_robot "left_arm" ⟨1, 2, 3⟩
    tfOk 1 false rfl

/-- Fields `loadRobotModel` never touches, and the C8 invariant on its
result. -/
theorem loadRobotModel_frame (s : DisplayState) (env : MonitorEnv) :
    (loadRobotModel s env).current_scene_time = s.current_scene_time ∧
    (loadRobotModel s env).planning_scene_needs_render = s.planning_scene_needs_render ∧
    (loadRobotModel s env).scene_display_time = s.scene_display_time ∧
    monitorRenderInv (loadRobotModel s env) := by
  cases hsc : env.newScene with
  | none => simp [loadRobotModel, hsc, monitorRenderInv]
  | some sc =>
      by_cases hc : sc.configured <;> simp [loadRobotModel, hsc, hc, monitorRenderInv]

/-- Fields `reset` never touches, and the C8 invariant on its result. -/
theorem reset_frame (s : DisplayState) (env : MonitorEnv) :
    (reset s env).current_scene_time = s.current_scene_time ∧
    (reset s env).planning_scene_needs_render = s.planning_scene_needs_render ∧
    (reset s env).scene_display_time = s.scene_display_time ∧
    monitorRenderInv (reset s env) := by
  have h := loadRobotModel_frame
    { s with planning_scene_render := false,
             planning_scene_robot := { s.planning_scene_robot with links := [] } } env
  simp only [reset]
  refine ⟨?_, ?_, ?_, ?_⟩
  · simpa using h.1
  · simpa using h.2.1
  · simpa using h.2.2.1
  · intro hr
    exact h.2.2.2 (by simpa using hr)

/-- Fields `calculateOffsetPosition` never touches. -/
theorem calc_frame (s : DisplayState) (tf : TFEnv) (s' : DisplayState)
    (h : calculateOffsetPosition s tf = some s') :
    s'.current_scene_time = s.current_scene_time ∧
    s'.planning_scene_needs_render = s.planning_scene_needs_render ∧
    s'.planning_scene_monitor = s.planning_scene_monitor ∧
    s'.planning_scene_render = s.planning_scene_render ∧
    s'.scene_display_time = s.scene_display_time := by
  rcases hm : s.planning_scene_monitor with _ | m
  · simp only [calculateOffsetPosition, hm] at h
    obtain rfl := Option.some.inj h
    exact ⟨rfl, rfl, hm, rfl, rfl⟩
  · rcases hsc : m.scene with _ | sc
    · simp [calculateOffsetPosition, hm, hsc] at h
    · by_cases htf : tf.latestCommonTimeOk
      · simp only [calculateOffsetPosition, hm, hsc, htf, if_true] at h
        obtain rfl := Option.some.inj h
        exact ⟨rfl, rfl, rfl, rfl, rfl⟩
      · simp only [calculateOffsetPosition, hm, hsc, htf, if_false] at h
        obtain rfl := Option.some.inj h
        exact ⟨rfl, rfl, hm, rfl, rfl⟩

/-- Fields `renderPlanningScene` never touches, plus what happens to the
needs-render flag. -/
theorem render_frame (s : DisplayState) (th : Bool) (s' : DisplayState)
    (tr : List RenderEvent) (h : renderPlanningScene s th = some (s', tr)) :
    s'.planning_scene_monitor = s.planning_scene_monitor ∧
    s'.planning_scene_render = s.planning_scene_render ∧
    s'.current_scene_time = s.current_scene_time ∧
    s'.scene_display_time = s.scene_display_time ∧
    (s'.planning_scene_needs_render = false ∨ s' = s) := by
  by_cases hg : s.planning_scene_render && s.planning_scene_needs_render
  · rcases hm : s.planning_scene_monitor with _ | m
    · simp [renderPlanningScene, hg, hm] at h
    · simp only [renderPlanningScene, hg, hm, if_true] at h
      obtain ⟨hs, -⟩ := Prod.mk.injEq .. ▸ Option.some.inj h
      subst hs
      exact ⟨rfl, rfl, rfl, rfl, Or.inl rfl⟩
  · simp only [renderPlanningScene, hg, if_false] at h
    obtain ⟨hs, -⟩ := Prod.mk.injEq .. ▸ Option.some.inj h
    subst hs
    exact ⟨rfl, rfl, rfl, rfl, Or.inr rfl⟩

/-- C7 counterexample: `update` mutates `current_scene_time_`, a plain data
member of the display that is neither a display-configuration property value
nor a pointer to an externally owned object, so the display's own mutable
state does not consist only of those.  At the concrete state `wState`
(accumulator 0, display time 1/5) an update with wall_dt = 1/10 leaves the
accumulator at 1/10. -/
theorem update_mutates_scene_time :
    (update wState (1/10) false).map (fun p => p.1.current_scene_time) =
      some (1/10 : ℚ) ∧
    wState.current_scene_time = 0 ∧ (1/10 : ℚ) ≠ 0 := by
  refine ⟨?_, rfl, by norm_num⟩
  have hlt : ¬((addTime wState (1/10)).scene_display_time <
      (addTime wState (1/10)).current_scene_time) := by
    simp only [addTime, wState]
    norm_num
  simp only [update, wState, hlt, if_false]
  simp [addTime, wState]
  norm_num

/-- C7 amended: besides the display-configuration fields and the pointers to
externally owned objects, the display's own mutable state comprises exactly
the needs-render flag and the accumulated scene time, and only the
render-queueing property handlers (scene alpha, scene color, attached-body
color), the scene-update callback, renderPlanningScene and update mutate
those two members: every other operation leaves them unchanged. -/
theorem ownState_frame (op : Op) (s s' : DisplayState)
    (h : applyOp op s = some s') (hop : touchesOwnState op = false) :
    ownExtra s' = ownExtra s := by
  cases op with
  | opOnEnable env tf =>
      simp only [applyOp, onEnable] at h
      obtain ⟨h1, h2, -, -, -⟩ := calc_frame _ tf s' h
      have hl := loadRobotModel_frame { s with enabled := true } env
      simp only [ownExtra, h1, h2]
      simp only at hl
      simp [hl.1, hl.2.1]
  | opOnDisable =>
      simp only [applyOp] at h
      obtain rfl := Option.some.inj h
      rcases hm : s.planning_scene_monitor with _ | m <;>
        simp [onDisable, ownExtra, hm]
  | opReset env =>
      simp only [applyOp] at h
      obtain rfl := Option.some.inj h
      have hr := reset_frame s env
      simp [ownExtra, hr.1, hr.2.1]
  | opLoadRobotModel env =>
      simp only [applyOp] at h
      obtain rfl := Option.some.inj h
      have hl := loadRobotModel_frame s env
      simp [ownExtra, hl.1, hl.2.1]
  | opUpdate dt th => simp [touchesOwnState] at hop
  | opRender th => simp [touchesOwnState] at hop
  | opSceneUpdate => simp [touchesOwnState] at hop
  | opFixedFrameChanged tf =>
      simp only [applyOp, fixedFrameChanged] at h
      obtain ⟨h1, h2, -, -, -⟩ := calc_frame s tf s' h
      simp [ownExtra, h1, h2]
  | opCalculateOffsetPosition tf =>
      simp only [applyOp] at h
      obtain ⟨h1, h2, -, -, -⟩ := calc_frame s tf s' h
      simp [ownExtra, h1, h2]
  | opSetRobotDescription v env =>
      simp only [applyOp] at h
      obtain rfl := Option.some.inj h
      unfold changedRobotDescription
      split
      · have hr := reset_frame { s with robot_description := v } env
        simp [ownExtra, hr.1, hr.2.1]
      · simp [ownExtra]
  | opSetTopic v =>
      simp only [applyOp, changedPlanningSceneTopic] at h
      rcases hm : s.planning_scene_monitor with _ | m <;>
        simp only [hm] at h <;> obtain rfl := Option.some.inj h <;> simp [ownExtra]
  | opSetSceneName v =>
      simp only [applyOp, changedSceneName] at h
      rcases hm : s.planning_scene_monitor with _ | m
      · simp only [hm] at h
        obtain rfl := Option.some.inj h
        simp [ownExtra]
      · rcases hsc : m.scene with _ | sc <;> simp only [hm, hsc] at h <;>
          obtain rfl := Option.some.inj h <;> simp [ownExtra]
  | opSetSceneEnabled b =>
      simp only [applyOp, changedSceneEnabled] at h
      obtain rfl := Option.some.inj h
      simp [ownExtra]
  | opSetSceneAlpha v => simp [touchesOwnState] at hop
  | opSetSceneColor c => simp [touchesOwnState] at hop
  | opSetRootLinkName =>
      simp only [applyOp, changedRootLinkName] at h
      rcases hm : s.planning_scene_monitor with _ | m
      · simp only [hm] at h
        obtain rfl := Option.some.inj h
        simp [ownExtra]
      · rcases hsc : m.scene with _ | sc <;> simp only [hm, hsc] at h <;>
          obtain rfl := Option.some.inj h <;> simp [ownExtra]
  | opSetSceneRobotEnabled b =>
      simp only [applyOp, changedSceneRobotEnabled] at h
      by_cases he : s.enabled <;> simp only [he, if_true, if_false, Bool.false_eq_true] at h <;>
        obtain rfl := Option.some.inj h <;> simp [ownExtra]
  | opSetRobotAlpha v =>
      simp only [applyOp, changedRobotSceneAlpha] at h
      obtain rfl := Option.some.inj h
      simp [ownExtra]
  | opSetAttachedBodyColor c => simp [touchesOwnState] at hop
  | opSetSceneDisplayTime v =>
      simp only [applyOp, changedSceneDisplayTime] at h
      obtain rfl := Option.some.inj h
      simp [ownExtra]
  | opSetLinkColor name c =>
      simp only [applyOp, setLinkColorSelf] at h
      obtain rfl := Option.some.inj h
      simp [ownExtra]
  | opUnsetLinkColor name =>
      simp only [applyOp, unsetLinkColorSelf] at h
      obtain rfl := Option.some.inj h
      simp [ownExtra]
  | opSetGroupColor g c =>
      simp only [applyOp] at h
      obtain rfl := Option.some.inj h
      simp [ownExtra]
  | opUnsetGroupColor g =>
      simp only [applyOp] at h
      obtain rfl := Option.some.inj h
      simp [ownExtra]
  | opUnsetAllColors =>
      simp only [applyOp] at h
      obtain rfl := Option.some.inj h
      simp [ownExtra]

theorem ownState_frame_witness :
    ownExtra (onDisable wState) = ownExtra wState :=
  ownState_frame Op.opOnDisable wState (onDisable wState) rfl rfl

/-- One display step preserves the renderer-implies-monitor invariant and
the lower bound the constructor sets on the Scene Display Time property. -/
theorem applyOp_step_props (op : Op) (s s' : DisplayState)
    (h : applyOp op s = some s') :
    (monitorRenderInv s → monitorRenderInv s') ∧
    (sceneDisplayTimeMin ≤ s.scene_display_time →
      sceneDisplayTimeMin ≤ s'.scene_display_time) := by
  cases op with
  | opOnEnable env tf =>
      simp only [applyOp, onEnable] at h
      have hc := calc_frame _ tf s' h
      have hl := loadRobotModel_frame { s with enabled := true } env
      constructor
      · intro _ hr
        rw [hc.2.2.2.1] at hr
        rw [hc.2.2.1]
        exact hl.2.2.2 hr
      · intro hmin
        rw [hc.2.2.2.2]
        show sceneDisplayTimeMin ≤
          (loadRobotModel { s with enabled := true } env).scene_display_time
        rw [hl.2.2.1]
        exact hmin
  | opOnDisable =>
      simp only [applyOp] at h
      obtain rfl := Option.some.inj h
      unfold onDisable
      rcases hm : s.planning_scene_monitor with _ | m <;>
        simp [monitorRenderInv, hm]
  | opReset env =>
      simp only [applyOp] at h
      obtain rfl := Option.some.inj h
      have hr := reset_frame s env
      refine ⟨fun _ => hr.2.2.2, fun hmin => ?_⟩
      rw [hr.2.2.1]
      exact hmin
  | opLoadRobotModel env =>
      simp only [applyOp] at h
      obtain rfl := Option.some.inj h
      have hl := loadRobotModel_frame s env
      refine ⟨fun _ => hl.2.2.2, fun hmin => ?_⟩
      rw [hl.2.2.1]
      exact hmin
  | opUpdate dt th =>
      simp only [applyOp] at h
      unfold update at h
      rcases hm : s.planning_scene_monitor with _ | m
      · simp only [hm, Option.map_some'] at h
        obtain rfl := Option.some.inj h
        exact ⟨fun hi => hi, fun hi => hi⟩
      · simp only [hm] at h
        by_cases hlt : (addTime s dt).scene_display_time < (addTime s dt).current_scene_time
        · simp only [hlt, if_true] at h
          cases hr : renderPlanningScene (addTime s dt) th with
          | none => rw [hr] at h; simp at h
          | some p =>
              rw [hr] at h
              obtain ⟨s2, tr⟩ := p
              simp only [Option.map_some'] at h
              obtain rfl := Option.some.inj h
              have hf := render_frame (addTime s dt) th s2 tr hr
              constructor
              · intro hinv hrr
                have h1 : s2.planning_scene_render = true := hrr
                have h2 : s.planning_scene_render = true := by
                  have h5 := hf.2.1
                  simp [addTime] at h5
                  rw [← h5]
                  exact h1
                have h3 := hinv h2
                show s2.planning_scene_monitor.isSome = true
                rw [hf.1]
                simp [addTime, hm]
              · intro hmin
                show sceneDisplayTimeMin ≤ s2.scene_display_time
                have h4 := hf.2.2.2.1
                simp [addTime] at h4
                rw [h4]
                exact hmin
        · simp only [hlt, if_false, Option.map_some'] at h
          obtain rfl := Option.some.inj h
          exact ⟨fun hinv hr => by simp [addTime, hm],
                 fun hmin => by simpa [addTime] using hmin⟩
  | opRender th =>
      simp only [applyOp] at h
      cases hr : renderPlanningScene s th with
      | none => rw [hr] at h; simp at h
      | some p =>
          rw [hr] at h
          obtain ⟨s2, tr⟩ := p
          simp only [Option.map_some'] at h
          obtain rfl := Option.some.inj h
          have hf := render_frame s th s2 tr hr
          constructor
          · intro hinv hrr
            rw [hf.2.1] at hrr
            rw [hf.1]
            exact hinv hrr
          · intro hmin
            rw [hf.2.2.2.1]
            exact hmin
  | opSceneUpdate =>
      simp only [applyOp, sceneMonitorReceivedUpdate, onSceneMonitorReceivedUpdate] at h
      rcases hm : s.planning_scene_monitor with _ | m
      · simp [hm] at h
      · rcases hsc : m.scene with _ | sc
        · simp [hm, hsc] at h
        · simp only [hm, hsc] at h
          obtain rfl := Option.some.inj h
          exact ⟨fun hinv hr => by simp [hm], fun hmin => hmin⟩
  | opFixedFrameChanged tf =>
      simp only [applyOp, fixedFrameChanged] at h
      have hc := calc_frame s tf s' h
      constructor
      · intro hinv hr
        rw [hc.2.2.2.1] at hr
        rw [hc.2.2.1]
        exact hinv hr
      · intro hmin
        rw [hc.2.2.2.2]
        exact hmin
  | opCalculateOffsetPosition tf =>
      simp only [applyOp] at h
      have hc := calc_frame s tf s' h
      constructor
      · intro hinv hr
        rw [hc.2.2.2.1] at hr
        rw [hc.2.2.1]
        exact hinv hr
      · intro hmin
        rw [hc.2.2.2.2]
        exact hmin
  | opSetRobotDescription v env =>
      simp only [applyOp] at h
      obtain rfl := Option.some.inj h
      unfold changedRobotDescription
      split
      · have hr := reset_frame { s with robot_description := v } env
        refine ⟨fun _ => hr.2.2.2, fun hmin => ?_⟩
        rw [hr.2.2.1]
        exact hmin
      · exact ⟨fun hinv hr => hinv hr, fun hmin => hmin⟩
  | opSetTopic v =>
      simp only [applyOp] at h
      obtain rfl := Option.some.inj h
      unfold changedPlanningSceneTopic
      constructor
      · intro hinv
        split
        · exact fun hr => hinv hr
        · exact fun _ => rfl
      · intro hmin
        split <;> exact hmin
  | opSetSceneName v =>
      simp only [applyOp] at h
      obtain rfl := Option.some.inj h
      unfold changedSceneName
      constructor
      · intro hinv
        split
        · exact fun hr => hinv hr
        · split
          · exact fun hr => hinv hr
          · exact fun _ => rfl
      · intro hmin
        split
        · exact hmin
        · split <;> exact hmin
  | opSetSceneEnabled b =>
      simp only [applyOp, changedSceneEnabled] at h
      obtain rfl := Option.some.inj h
      exact ⟨fun hinv hr => hinv hr, fun hmin => hmin⟩
  | opSetSceneAlpha v =>
      simp only [applyOp, changedSceneAlpha, queueRenderSceneGeometry] at h
      obtain rfl := Option.some.inj h
      exact ⟨fun hinv hr => hinv hr, fun hmin => hmin⟩
  | opSetSceneColor c =>
      simp only [applyOp, changedSceneColor, queueRenderSceneGeometry] at h
      obtain rfl := Option.some.inj h
      exact ⟨fun hinv hr => hinv hr, fun hmin => hmin⟩
  | opSetRootLinkName =>
      simp only [applyOp] at h
      obtain rfl := Option.some.inj h
      unfold changedRootLinkName
      constructor
      · intro hinv
        split
        · exact fun hr => hinv hr
        · split <;> exact fun hr => hinv hr
      · intro hmin
        split
        · exact hmin
        · split <;> exact hmin
  | opSetSceneRobotEnabled b =>
      simp only [applyOp] at h
      obtain rfl := Option.some.inj h
      unfold changedSceneRobotEnabled
      constructor
      · intro hinv
        split <;> exact fun hr => hinv hr
      · intro hmin
        split <;> exact hmin
  | opSetRobotAlpha v =>
      simp only [applyOp, changedRobotSceneAlpha] at h
      obtain rfl := Option.some.inj h
      exact ⟨fun hinv hr => hinv hr, fun hmin => hmin⟩
  | opSetAttachedBodyColor c =>
      simp only [applyOp, changedAttachedBodyColor, queueRenderSceneGeometry] at h
      obtain rfl := Option.some.inj h
      exact ⟨fun hinv hr => hinv hr, fun hmin => hmin⟩
  | opSetSceneDisplayTime v =>
      simp only [applyOp, changedSceneDisplayTime] at h
      obtain rfl := Option.some.inj h
      exact ⟨fun hinv hr => hinv hr, fun _ => le_max_left _ _⟩
  | opSetLinkColor name c =>
      simp only [applyOp, setLinkColorSelf] at h
      obtain rfl := Option.some.inj h
      exact ⟨fun hinv hr => hinv hr, fun hmin => hmin⟩
  | opUnsetLinkColor name =>
      simp only [applyOp, unsetLinkColorSelf] at h
      obtain rfl := Option.some.inj h
      exact ⟨fun hinv hr => hinv hr, fun hmin => hmin⟩
  | opSetGroupColor g c =>
      simp only [applyOp] at h
      obtain rfl := Option.some.inj h
      exact ⟨fun hinv hr => hinv hr, fun hmin => hmin⟩
  | opUnsetGroupColor g =>
      simp only [applyOp] at h
      obtain rfl := Option.some.inj h
      exact ⟨fun hinv hr => hinv hr, fun hmin => hmin⟩
  | opUnsetAllColors =>
      simp only [applyOp] at h
      obtain rfl := Option.some.inj h
      exact ⟨fun hinv hr => hinv hr, fun hmin => hmin⟩

/-- The two inductive invariants over reachable states. -/
theorem reachable_props (s : DisplayState) (h : Reachable s) :
    monitorRenderInv s ∧ sceneDisplayTimeMin ≤ s.scene_display_time := by
  induction h with
  | init =>
      constructor
      · intro hr
        simp [initialState] at hr
      · norm_num [initialState, sceneDisplayTimeMin]
  | step op hs hstep ih =>
      exact ⟨(applyOp_step_props op _ _ hstep).1 ih.1,
             (applyOp_step_props op _ _ hstep).2 ih.2⟩

/-- C8: in every reachable state, a non-null renderer implies a non-null
monitor (loadRobotModel creates the renderer only when the monitor survives,
and reset/loadRobotModel clear the renderer first), so the unguarded
lockScene/unlockScene calls in renderPlanningScene never dereference a null
monitor: renderPlanningScene always returns a result. -/
theorem reachable_render_monitor (s : DisplayState) (h : Reachable s) :
    (s.planning_scene_render = true → s.planning_scene_monitor.isSome = true) ∧
    ∀ th, (renderPlanningScene s th).isSome = true := by
  have hinv := (reachable_props s h).1
  refine ⟨hinv, fun th => ?_⟩
  by_cases hg : s.planning_scene_render && s.planning_scene_needs_render
  · have hr : s.planning_scene_render = true := by
      exact (Bool.and_eq_true _ _ ▸ hg).1
    rcases hmo : s.planning_scene_monitor with _ | m
    · exact absurd (hinv hr) (by simp [hmo])
    · simp [renderPlanningScene, hg, hmo]
  · simp [renderPlanningScene, hg]

theorem reachable_render_monitor_witness :
    (initialState.planning_scene_render = true →
      initialState.planning_scene_monitor.isSome = true) ∧
    (renderPlanningScene initialState true).isSome = true :=
  ⟨(reachable_render_monitor initialState Reachable.init).1,
   (reachable_render_monitor initialState Reachable.init).2 true⟩

/-- Accumulation across a run of non-rendering updates: when the next update
takes the render branch, the display time has been strictly exceeded by the
total accumulated wall time. -/
theorem noAttemptRun_bound (dts : List ℚ) (s : DisplayState) (dt : ℚ)
    (h1 : noAttemptRun s dts = true)
    (h2 : updateAttempts (List.foldl addTime s dts) dt = true) :
    s.scene_display_time < s.current_scene_time + dts.sum + dt := by
  induction dts generalizing s with
  | nil =>
      simp only [List.foldl_nil] at h2
      unfold updateAttempts at h2
      have h3 := (Bool.and_eq_true _ _ ▸ h2).2
      have h4 := of_decide_eq_true h3
      simpa using h4
  | cons d rest ih =>
      simp only [noAttemptRun, Bool.and_eq_true, Bool.not_eq_true'] at h1
      obtain ⟨-, hrest⟩ := h1
      have h5 := ih (addTime s d) hrest (by simpa using h2)
      simp only [addTime] at h5
      simp only [List.sum_cons]
      linarith

/-- C9: update rate-limits rendering: with no monitor it leaves the
accumulated scene time unchanged; with a monitor it adds wall_dt and takes
the render branch exactly when the accumulator strictly exceeds the Scene
Display Time property, resetting the accumulator to 0 after each attempt;
hence between two consecutive render attempts more than the configured
display time of wall-clock time accumulates, and in every reachable state
the property respects its configured minimum 0.0001. -/
theorem update_rate_limited (s : DisplayState) :
    (s.planning_scene_monitor = none → ∀ dt th, update s dt th = some (s, [])) ∧
    (∀ dt th, updateAttempts s dt = false → s.planning_scene_monitor.isSome = true →
      update s dt th = some (addTime s dt, [])) ∧
    (∀ dt th s' tr, updateAttempts s dt = true → update s dt th = some (s', tr) →
      s'.current_scene_time = 0) ∧
    (∀ dts dt, s.current_scene_time = 0 → noAttemptRun s dts = true →
      updateAttempts (List.foldl addTime s dts) dt = true →
      s.scene_display_time < dts.sum + dt) ∧
    (Reachable s → sceneDisplayTimeMin ≤ s.scene_display_time) := by
  refine ⟨?_, ?_, ?_, ?_, ?_⟩
  · intro hm dt th
    simp [update, hm]
  · intro dt th hna hsome
    rcases hmo : s.planning_scene_monitor with _ | m
    · rw [hmo] at hsome
      simp at hsome
    · have hnl : ¬(s.scene_display_time < s.current_scene_time + dt) := by
        unfold updateAttempts at hna
        rw [hmo] at hna
        simpa using hna
      unfold update
      simp only [hmo]
      rw [if_neg (by simpa [addTime] using hnl)]
  · intro dt th s' tr hat hupd
    have hsome : s.planning_scene_monitor.isSome = true := by
      unfold updateAttempts at hat
      exact (Bool.and_eq_true _ _ ▸ hat).1
    have hlt : s.scene_display_time < s.current_scene_time + dt := by
      unfold updateAttempts at hat
      exact of_decide_eq_true (Bool.and_eq_true _ _ ▸ hat).2
    rcases hmo : s.planning_scene_monitor with _ | m
    · rw [hmo] at hsome
      simp at hsome
    · unfold update at hupd
      simp only [hmo] at hupd
      rw [if_pos (by simpa [addTime] using hlt)] at hupd
      cases hr : renderPlanningScene (addTime s dt) th with
      | none =>
          rw [hr] at hupd
          simp at hupd
      | some p =>
          obtain ⟨s2, tr2⟩ := p
          rw [hr] at hupd
          obtain ⟨hs', -⟩ := Prod.mk.injEq .. ▸ Option.some.inj hupd
          subst hs'
          rfl
  · intro dts dt h0 hna hat
    have h6 := noAttemptRun_bound dts s dt hna hat
    rw [h0] at h6
    simpa using h6
  · intro hreach
    exact (reachable_props s hreach).2

theorem update_rate_limited_witness :
    update initialState 1 false = some (initialState, []) ∧
    sceneDisplayTimeMin ≤ initialState.scene_display_time :=
  ⟨(update_rate_limited initialState).1 rfl 1 false,
   (update_rate_limited initialState).2.2.2.2 Reachable.init⟩

/-- Replacing the first link with a given name changes exactly what a
subsequent lookup of that name finds. -/
theorem findLink_replaceLink_self (links : List (String × RobotLink)) (name : String)
    (l l' : RobotLink) (h : findLink links name = some l) :
    findLink (replaceLink links name l') name = some l' := by
  induction links with
  | nil => simp [findLink] at h
  | cons p rest ih =>
      obtain ⟨n, x⟩ := p
      by_cases hn : n = name
      · simp [findLink, replaceLink, hn]
      · simp only [findLink, replaceLink, hn, if_false] at h ⊢
        exact ih h

/-- C10: for a link name not present in the robot model, setLinkColor and
unsetLinkColor (both the public single-argument forms and the
robot-parameterised forms) are total no-ops leaving every existing link's
color unchanged; the color is applied or removed exactly when getLink
returns a link. -/
theorem linkColor_guarded (robot : Robot) (s : DisplayState) (name : String) (c : Color)
    (h : robot.getLink name = none) (hs : s.planning_scene_robot.getLink name = none) :
    setLinkColor robot name c = robot ∧
    unsetLinkColor robot name = robot ∧
    setLinkColorSelf s name c = s ∧
    unsetLinkColorSelf s name = s ∧
    (∀ other, (setLinkColor robot name c).getLink other = robot.getLink other) ∧
    (∀ other, (unsetLinkColor robot name).getLink other = robot.getLink other) ∧
    (∀ r2 l, Robot.getLink r2 name = some l →
      (setLinkColor r2 name c).getLink name = some ({ l with color := some c }) ∧
      (unsetLinkColor r2 name).getLink name = some ({ l with color := none })) := by
  have h1 : setLinkColor robot name c = robot := by simp [setLinkColor, h]
  have h2 : unsetLinkColor robot name = robot := by simp [unsetLinkColor, h]
  refine ⟨h1, h2, ?_, ?_, fun other => by rw [h1], fun other => by rw [h2], ?_⟩
  · simp [setLinkColorSelf, setLinkColor, hs]
  · simp [unsetLinkColorSelf, unsetLinkColor, hs]
  · intro r2 l hl
    have hl2 : findLink r2.links name = some l := hl
    constructor
    · simp only [setLinkColor, Robot.getLink, hl2]
      exact findLink_replaceLink_self r2.links name l _ hl2
    · simp only [unsetLinkColor, Robot.getLink, hl2]
      exact findLink_replaceLink_self r2.links name l _ hl2

theorem linkColor_guarded_witness :
    setLinkColor robotW "missing" ⟨1, 2, 3⟩ = robotW ∧
    unsetLinkColor robotW "missing" = robotW ∧
    setLinkColorSelf wState "missing" ⟨1, 2, 3⟩ = wState ∧
    unsetLinkColorSelf wState "missing" = wState :=
  have h := linkColor_guarded robotW wState "missing" ⟨1, 2, 3⟩ (by decide) (by decide)
  ⟨h.1, h.2.1, h.2.2.1, h.2.2.2.1⟩
